import Mathlib

/-!
Shallow embedding of the two extraction scripts of this repository,
`extract_data.py` and `extract_all_transactions.py`: JSON values with
Python truthiness, the curl-based `fetch_json` helper, the observable
filesystem/network state of a run, the regex scan for transaction ids,
the idempotency filter, and the fetch-and-persist workers, together
with theorems settling the specification claims C1 - C10.

External collaborators are modelled at the boundary the scripts observe:
the network enters as a function from URL path to a `CurlOutcome`, and
`json.loads` enters as a `decode : String → Option Json` parameter
(`none` meaning the decoder raised).  Directory creation and stdout
progress lines are not modelled except for the `Saved:` lines of
`save_json`, which are kept as a log so that "silently skipped" claims
are expressible.
-/

/-- JSON values as decoded by `json.loads`.  Numbers are modelled as
integers; the claims only depend on the truthiness of numbers, which is
determined by being zero or not. -/
inductive Json where
  | null
  | bool (b : Bool)
  | num (n : Int)
  | str (s : String)
  | arr (xs : List Json)
  | obj (fields : List (String × Json))

/-- Python truthiness of a decoded JSON value, as used by `if data:`:
`None`, `False`, `0`, `""`, `[]` and `{}` are falsy, everything else truthy. -/
def Json.truthy : Json → Bool
  | .null => false
  | .bool b => b
  | .num n => decide (n ≠ 0)
  | .str s => decide (s ≠ "")
  | .arr xs => !xs.isEmpty
  | .obj kvs => !kvs.isEmpty

/-- Truthiness of an `Option Json` as returned by `fetch_json` (`None` is falsy). -/
def pyTruthy : Option Json → Bool
  | none => false
  | some j => j.truthy

/-- Outcome of `subprocess.run(["curl", "-s", "--max-time", "30", url], ...)`:
either the call raised an exception, or it completed with an exit code and a
captured stdout. -/
inductive CurlOutcome where
  | exc (msg : String)
  | ran (returncode : Int) (stdout : String)

/-- `fetch_json` of both scripts (extract_data.py lines 68-84,
extract_all_transactions.py lines 34-49): run curl; when the exit code is 0
and stdout is nonempty, decode stdout with `json.loads`, otherwise return
`None`.  A raising `json.loads` is caught by the `except` block and also
yields `None`; that case is `decode out = none` here. -/
def fetch_json (decode : String → Option Json) (outcome : CurlOutcome) : Option Json :=
  match outcome with
  | .exc _ => none
  | .ran rc out => if rc = 0 ∧ out ≠ "" then decode out else none

/-- Observable state of a run: the files written (paths relative to
`DATA_DIR`, most recent first), the URL paths requested (in request order),
the `Saved:` log lines, and the discovery variant's success/failure
counters. -/
structure St where
  fs : List String
  calls : List String
  logs : List String
  success : Nat
  failed : Nat
deriving DecidableEq

/-- The empty starting state. -/
def St.init : St := ⟨[], [], [], 0, 0⟩

/-- `save_json` (both scripts): write the document at `filepath` (parent
directories are created as needed; only the path is tracked) and log it. -/
def save_json (st : St) (filepath : String) : St :=
  { st with fs := filepath :: st.fs, logs := st.logs ++ ["Saved: " ++ filepath] }

/-- Record one `fetch_json` request against the API. -/
def recordCall (st : St) (path : String) : St :=
  { st with calls := st.calls ++ [path] }

/-- URL path of the primary transaction fetch, `f"/transactions/{tx_id}"`. -/
def urlTx (tx_id : String) : String := "/transactions/" ++ tx_id

/-- URL path of the why sub-resource fetch, `f"/transactions/{tx_id}/why"`. -/
def urlWhy (tx_id : String) : String := "/transactions/" ++ (tx_id ++ "/why")

/-- Artifact path of a transaction detail, `transactions/{tx_id}.json`. -/
def txFilePath (tx_id : String) : String := "transactions/" ++ (tx_id ++ ".json")

/-- Artifact path of a why explanation, `transactions/why/{tx_id}.json`. -/
def whyFilePath (tx_id : String) : String := "transactions/why/" ++ (tx_id ++ ".json")

/-- Python regex `\s` restricted to ASCII: space and `\t\n\v\f\r`. -/
def isWs (c : Char) : Bool :=
  decide (c = ' ') || decide (c = '\t') || decide (c = '\n') || decide (c = '\r') ||
  decide (c = '\x0b') || decide (c = '\x0c')

/-- Character class `[a-f0-9-]` of the transaction-id regex. -/
def isIdChar (c : Char) : Bool :=
  (decide ('a' ≤ c) && decide (c ≤ 'f')) || (decide ('0' ≤ c) && decide (c ≤ '9')) ||
  decide (c = '-')

/-- The literal part of the discovery regex (extract_all_transactions.py
line 18). -/
def keyLit : List Char := "\"transaction_id\":".data

/-- Match a literal character sequence at the head, returning the rest. -/
def dropLit : List Char → List Char → Option (List Char)
  | [], cs => some cs
  | _ :: _, [] => none
  | l :: ls, c :: cs => if c = l then dropLit ls cs else none

/-- Consume exactly `n` characters of the class `[a-f0-9-]`. -/
def takeClass : Nat → List Char → Option (List Char × List Char)
  | 0, cs => some ([], cs)
  | _ + 1, [] => none
  | n + 1, c :: cs =>
    if isIdChar c then
      match takeClass n cs with
      | some (ids, rest) => some (c :: ids, rest)
      | none => none
    else none

/-- Try to match `"transaction_id":\s*"([a-f0-9-]{36})"` at the head of the
character list; on success return the captured group and the characters
after the match.  The greedy `\s*` needs no backtracking here because a
whitespace character can never satisfy the following `"`. -/
def matchAt (cs : List Char) : Option (String × List Char) :=
  match dropLit keyLit cs with
  | none => none
  | some r1 =>
    match r1.dropWhile isWs with
    | [] => none
    | q1 :: r2 =>
      if q1 = '"' then
        match takeClass 36 r2 with
        | none => none
        | some (ids, r3) =>
          match r3 with
          | [] => none
          | q2 :: r4 => if q2 = '"' then some (String.mk ids, r4) else none
      else none

/-- Fuel-indexed scanner: left-to-right non-overlapping matches, resuming
after each match, which is the semantics of `re.findall`.  Every step
consumes at least one character, so fuel equal to the input length
suffices. -/
def findIdsFuel : Nat → List Char → List String
  | 0, _ => []
  | _ + 1, [] => []
  | fuel + 1, c :: cs =>
    match matchAt (c :: cs) with
    | some (id, rest) => id :: findIdsFuel fuel rest
    | none => findIdsFuel fuel cs

/-- `pattern.findall(content)`: every captured transaction id, in order. -/
def findIds (content : String) : List String :=
  findIdsFuel content.data.length content.data

/-- A file below `DATA_DIR` as enumerated by `DATA_DIR.rglob`: its path
components relative to `DATA_DIR`, and its text content (`none` when
`read_text` raises). -/
structure ScanFile where
  comps : List String
  content : Option String

/-- POSIX rendering of relative path components joined by `/`. -/
def joinPath : List String → String
  | [] => ""
  | [c] => c
  | c :: cs => c ++ "/" ++ joinPath cs

/-- The full path string `str(json_file)`, where `root` is the string form
of `DATA_DIR`. -/
def pathStr (root : String) (f : ScanFile) : String :=
  root ++ "/" ++ joinPath f.comps

/-- The file name (last path component), as in `pathlib`. -/
def ScanFile.name (f : ScanFile) : String := f.comps.getLastD ""

/-- The `rglob("*.json")` name filter: the file name ends in `.json`. -/
def isJsonName (nm : String) : Bool := ".json".data.isSuffixOf nm.data

/-- The skip filter of `find_all_transaction_ids` (line 22):
`"transactions" in str(json_file)`, substring containment over the whole
path string. -/
def mentionsTransactions (root : String) (f : ScanFile) : Bool :=
  decide ("transactions".data <:+: (pathStr root f).data)

/-- Add an element to a list standing for a Python set (no duplicates). -/
def insertNew (x : String) (l : List String) : List String :=
  if x ∈ l then l else l ++ [x]

/-- `tx_ids.update(matches)`: add every element of `matches` to the set. -/
def updateSet (acc : List String) (found : List String) : List String :=
  found.foldl (fun a m => insertNew m a) acc

/-- The loop body of `find_all_transaction_ids` for one enumerated file:
apply the name filter and the skip filter, then read and collect matches; a
read error (`content = none`) only loses this file's contribution. -/
def scanStep (root : String) (acc : List String) (f : ScanFile) : List String :=
  if isJsonName f.name && !mentionsTransactions root f then
    match f.content with
    | some content => updateSet acc (findIds content)
    | none => acc
  else acc

/-- `find_all_transaction_ids` (extract_all_transactions.py lines 15-31):
scan every `*.json` file below `DATA_DIR`, skip any whose full path string
contains `"transactions"`, read each remaining one and collect the distinct
regex captures. -/
def find_all_transaction_ids (root : String) (files : List ScanFile) : List String :=
  files.foldl (scanStep root) []

/-- `Path.stem` for a name selected by `glob("*.json")`: drop the final
`.json` extension; a leading-dot-only name such as `.json` has no stem to
drop, matching `pathlib`. -/
def stemJson (nm : String) : String :=
  if String.mk (nm.data.take (nm.data.length - 5)) = "" then nm
  else String.mk (nm.data.take (nm.data.length - 5))

/-- Recover the id from a direct entry of `TX_DIR`, mirroring
`TX_DIR.glob("*.json")` with the `f.name != "why"` filter and `f.stem`
(extract_all_transactions.py lines 74-77): the path must be
`transactions/<name>` with no further separator, and `<name>` must end in
`.json` and differ from `why`. -/
def parseTx (p : String) : Option String :=
  if p.data.take 13 = "transactions/".data then
    let nm := String.mk (p.data.drop 13)
    if decide ('/' ∉ nm.data) && isJsonName nm && decide (nm ≠ "why") then
      some (stemJson nm)
    else none
  else none

/-- Accumulate the stem of one directory entry of `TX_DIR`, when the entry
passes the glob and name filters. -/
def stemStep (acc : List String) (p : String) : List String :=
  match parseTx p with
  | some s => insertNew s acc
  | none => acc

/-- The id stems already present in `TX_DIR` (the `existing` set of lines
74-77). -/
def existingStems (fs : List String) : List String :=
  fs.foldl stemStep []

/-- `missing = tx_ids - existing` (line 79): the idempotency filter. -/
def workSet (tx_ids : List String) (fs : List String) : List String :=
  tx_ids.filter (fun id => decide (id ∉ existingStems fs))

/-- Python string comparison (code-point lexicographic), as used by
`sorted`. -/
def charListLt : List Char → List Char → Bool
  | [], [] => false
  | [], _ :: _ => true
  | _ :: _, [] => false
  | a :: as, b :: bs => if a < b then true else if b < a then false else charListLt as bs

/-- Insertion into a sorted list. -/
def insertSorted (x : String) : List String → List String
  | [] => [x]
  | y :: ys => if charListLt x.data y.data then x :: y :: ys else y :: insertSorted x ys

/-- `sorted(missing)`. -/
def sortStrings (l : List String) : List String := l.foldr insertSorted []

/-- One iteration of the discovery fetch loop (extract_all_transactions.py
lines 92-109): fetch the transaction; only when the result is truthy, save
it, fetch the `why` explanation, save that when truthy, and count a
success; otherwise count a failure. -/
def processTxDiscovery (decode : String → Option Json) (api : String → CurlOutcome)
    (st : St) (tx_id : String) : St :=
  let d := fetch_json decode (api (urlTx tx_id))
  let st1 := recordCall st (urlTx tx_id)
  if pyTruthy d then
    let st2 := save_json st1 (txFilePath tx_id)
    let w := fetch_json decode (api (urlWhy tx_id))
    let st3 := recordCall st2 (urlWhy tx_id)
    let st4 := if pyTruthy w then save_json st3 (whyFilePath tx_id) else st3
    { st4 with success := st4.success + 1 }
  else
    { st1 with failed := st1.failed + 1 }

/-- The work-set computation and fetch loop of the discovery `main`
(extract_all_transactions.py lines 59-109), with the scan result `tx_ids`
passed in.  When nothing is missing the function returns at once, before
any fetch. -/
def discovery_main (decode : String → Option Json) (api : String → CurlOutcome)
    (tx_ids : List String) (st : St) : St :=
  let missing := workSet tx_ids st.fs
  if missing.isEmpty then st
  else (sortStrings missing).foldl (processTxDiscovery decode api) st

/-- The `why` half of one static-loop iteration (extract_data.py lines
152-155): fetch the explanation and save it when truthy.  In the source it
is NOT guarded by the primary fetch. -/
def whyStep (decode : String → Option Json) (api : String → CurlOutcome)
    (st : St) (tx_id : String) : St :=
  let w := fetch_json decode (api (urlWhy tx_id))
  let st1 := recordCall st (urlWhy tx_id)
  if pyTruthy w then save_json st1 (whyFilePath tx_id) else st1

/-- One iteration of `extract_transactions` (extract_data.py lines 144-155):
the primary fetch/save, then the `why` fetch/save, sequentially and
independently of each other. -/
def processTxStatic (decode : String → Option Json) (api : String → CurlOutcome)
    (st : St) (tx_id : String) : St :=
  let d := fetch_json decode (api (urlTx tx_id))
  let st1 := recordCall st (urlTx tx_id)
  let st2 := if pyTruthy d then save_json st1 (txFilePath tx_id) else st1
  whyStep decode api st2 tx_id

/-- The hard-coded transaction ids of extract_data.py (lines 17-65). -/
def TRANSACTION_IDS : List String := [
  "dd129486-0b41-4b60-b023-b84834eb88d1",
  "dd120776-d050-44ad-a807-0881ec66b25c",
  "dd12603e-30b4-4893-b057-d1424ce10003",
  "dd12344d-722b-437d-8666-aef69eb17b61",
  "dd125369-f35e-4e36-907d-239111edb4a9",
  "dd12df73-641f-40f2-872f-0778b2be7e61",
  "dd121f11-f763-405d-98ce-842f34c35c6c",
  "dd1206b0-34ca-46be-9295-16e931c93e1a",
  "dd125d74-2755-45aa-9417-7fd1d713c029",
  "dd12856f-3ac4-47cb-b29d-def4dccf6fb8",
  "dd128d1b-8ba1-41cd-927e-d026dffc34ed",
  "dd122799-534a-4e19-877f-1a10553825e0",
  "dd12018c-c025-4f86-9430-b97bc8106d51",
  "dd125388-c220-4011-9761-e146588451e5",
  "dd121522-c0ea-46d9-9074-a9e409521d16",
  "dd51749a-4664-4f9b-8834-3996c32a24bc",
  "dd51011c-8d82-4970-b29b-d3fe460d8505",
  "dd118c65-bbb1-4e92-bbd7-570c1f43529b",
  "dd110d81-b79a-4732-8640-e3a9b27252be",
  "dd11abab-cfff-44eb-98e4-6eab31e07281",
  "dd11fe33-3411-4063-81b5-b690c12a9d05",
  "dd11f147-bc61-440a-9c57-da3ee1555c33",
  "dd112beb-08f1-4704-a9d7-50641a87ffab",
  "dd51e51b-0bd3-4836-bdcb-f1c6a7461a18",
  "dd51e08a-dc97-4661-8bb7-62b80ee14c90",
  "dd5125eb-e841-4243-9671-fe970e4889e1",
  "dd1165e7-c8f8-4f36-8491-0aba02258787",
  "dd1164da-0615-4722-a71b-b7e57527be28",
  "dd115ffb-fc94-463d-91db-f1d97fbeeec6",
  "dd529820-7122-4654-a460-780793c69d2d",
  "dd529e47-1d23-4cc9-93c3-09f358f1ce81",
  "dd52ccfb-a405-4f6e-9ea3-817937b7ecdb",
  "dd110f78-8797-478d-b3e6-71f00e2ed4a9",
  "dd1172bf-ffe6-4722-b158-53b800aeea29",
  "dd11e06e-ab40-4983-b765-e37a72e63a9c",
  "dd1230a4-aeee-4348-bb78-108c86a228a9",
  "dd122c66-a05a-4222-8f58-096a6ee93695",
  "dd126839-98c9-471f-a2c2-e3627e5b3321",
  "dd125455-3bae-440c-890a-938b482232e7",
  "dd12b879-ce1f-4f32-b053-947ff3f01206",
  "dd121dc7-5631-4b65-bc0e-f7b61e65ab15",
  "dd12bd17-a537-4da0-9a8e-57281544f63a",
  "dd1241e1-dd57-4836-ac8a-c16299efb867",
  "dd124584-e716-4f4b-acc7-6054a3a32888",
  "dd529fe7-95f5-4682-b09e-2281b7358158",
  "dd516e91-6817-4d4a-82bf-028d4734a783",
  "dd518512-77dd-4aaf-98b6-2838cac63908"]

/-- `extract_transactions` (extract_data.py lines 141-155): the static
worker over the hard-coded id list. -/
def extract_transactions (decode : String → Option Json) (api : String → CurlOutcome)
    (st : St) : St :=
  TRANSACTION_IDS.foldl (processTxStatic decode api) st

/-- `extract_merchants` (extract_data.py lines 95-100). -/
def extract_merchants (decode : String → Option Json) (api : String → CurlOutcome)
    (st : St) : St :=
  let d := fetch_json decode (api ("/merchants"))
  let st1 := recordCall st ("/merchants")
  if pyTruthy d then save_json st1 ("merchants.json") else st1

/-- UTF-8 bytes of a character (Python `str.encode("utf-8")`), as natural
numbers below 256. -/
def utf8Bytes (c : Char) : List Nat :=
  let n := c.toNat
  if n < 128 then [n]
  else if n < 2048 then [192 + n / 64, 128 + n % 64]
  else if n < 65536 then [224 + n / 4096, 128 + n / 64 % 64, 128 + n % 64]
  else [240 + n / 262144, 128 + n / 4096 % 64, 128 + n / 64 % 64, 128 + n % 64]

/-- Upper-case hexadecimal digit for a value below 16. -/
def hexDigitU (n : Nat) : Char :=
  if n < 10 then Char.ofNat (48 + n) else Char.ofNat (55 + n)

/-- Bytes `urllib.parse.quote` never encodes: ASCII letters, digits and
`_.-~`; with `safe=""` nothing else is exempt. -/
def isQuoteSafe (b : Nat) : Bool :=
  (decide (65 ≤ b) && decide (b ≤ 90)) || (decide (97 ≤ b) && decide (b ≤ 122)) ||
  (decide (48 ≤ b) && decide (b ≤ 57)) || b == 45 || b == 46 || b == 95 || b == 126

/-- Percent-encode one byte unless it is always safe. -/
def quoteByte (b : Nat) : List Char :=
  if isQuoteSafe b then [Char.ofNat b] else ['%', hexDigitU (b / 16), hexDigitU (b % 16)]

/-- `urllib.parse.quote(s, safe="")` (extract_data.py line 128):
percent-encode the UTF-8 bytes with upper-case hex digits; only the
always-safe bytes stay literal. -/
def pyQuote (s : String) : String :=
  String.mk (((s.data.map utf8Bytes).flatten.map quoteByte).flatten)

/-- `s.replace(a, b)` for a one-character pattern. -/
def replaceChar (s : String) (a b : Char) : String :=
  String.mk (s.data.map (fun c => if c = a then b else c))

/-- The filesystem-safe plan-key name,
`plan_key.replace(":", "_").replace("/", "_")` (extract_data.py line 132). -/
def safeKey (plan_key : String) : String :=
  replaceChar (replaceChar plan_key ':' '_') '/' '_'

/-- One iteration of the per-plan loop (extract_data.py lines 125-133).
`plan.get("plan_key")` needs a JSON object (anything else raises
`AttributeError`); a truthy non-string key makes `urllib.parse.quote` raise
`TypeError`; both uncaught errors abort the whole script and are modelled
as `.error`. -/
def processPlan (decode : String → Option Json) (api : String → CurlOutcome)
    (merchant_id : Nat) (st : St) (plan : Json) : Except String St :=
  match plan with
  | .obj kvs =>
    match List.lookup ("plan_key") kvs with
    | none => .ok st
    | some k =>
      if k.truthy then
        match k with
        | .str s =>
          let encoded_key := pyQuote s
          let url := "/merchants/" ++ toString merchant_id ++ "/plans/" ++ encoded_key
          let pd := fetch_json decode (api url)
          let st1 := recordCall st url
          if pyTruthy pd then
            .ok (save_json st1 ("plans/details/" ++ (safeKey s ++ ".json")))
          else .ok st1
        | _ => .error ("TypeError: quote expects str")
      else .ok st
  | _ => .error ("AttributeError: no get method")

/-- The `for plan in data` loop over a fetched plans list. -/
def processPlans (decode : String → Option Json) (api : String → CurlOutcome)
    (merchant_id : Nat) : St → List Json → Except String St
  | st, [] => .ok st
  | st, p :: ps =>
    match processPlan decode api merchant_id st p with
    | .ok st1 => processPlans decode api merchant_id st1 ps
    | .error e => .error e

/-- A fetch/save pair (`if data: save_json(...)`) as used for the merchant
detail, monthly and stability endpoints. -/
def fetchSave (decode : String → Option Json) (api : String → CurlOutcome)
    (url filepath : String) (st : St) : St :=
  let d := fetch_json decode (api url)
  let st1 := recordCall st url
  if pyTruthy d then save_json st1 filepath else st1

/-- The plans section of `extract_merchant_details` for one merchant
(extract_data.py lines 119-133): fetch the plans list; when truthy, save it
and process each entry.  Iterating a truthy non-array decoded value would
raise in Python before any entry is processed and is modelled as `.error`. -/
def merchantPlansSection (decode : String → Option Json) (api : String → CurlOutcome)
    (merchant_id : Nat) (st : St) : Except String St :=
  let url := "/merchants/" ++ toString merchant_id ++ "/plans"
  let d := fetch_json decode (api url)
  let st1 := recordCall st url
  if pyTruthy d then
    let st2 := save_json st1 ("plans/" ++ (toString merchant_id ++ ".json"))
    match d with
    | some (.arr plans) => processPlans decode api merchant_id st2 plans
    | _ => .error ("TypeError: not a JSON array of objects")
  else .ok st1

/-- The hard-coded merchant ids of extract_data.py (line 14). -/
def MERCHANT_IDS : List Nat := [30, 243, 405]

/-- The `extract_merchant_details` body for one merchant (extract_data.py
lines 105-138): detail, monthly, plans (with the nested per-plan loop) and
stability. -/
def extract_merchant_one (decode : String → Option Json) (api : String → CurlOutcome)
    (merchant_id : Nat) (st : St) : Except String St :=
  let ms := toString merchant_id
  let st1 := fetchSave decode api ("/merchants/" ++ ms) ("merchants/" ++ (ms ++ ".json")) st
  let st2 := fetchSave decode api ("/merchants/" ++ (ms ++ "/monthly")) ("monthly/" ++ (ms ++ ".json")) st1
  match merchantPlansSection decode api merchant_id st2 with
  | .error e => .error e
  | .ok st3 =>
    .ok (fetchSave decode api ("/merchants/" ++ (ms ++ "/stability")) ("stability/" ++ (ms ++ ".json")) st3)

/-- `extract_merchant_details` (extract_data.py lines 103-138). -/
def extract_merchant_details (decode : String → Option Json) (api : String → CurlOutcome)
    (st : St) : Except String St :=
  MERCHANT_IDS.foldlM (fun s mid => extract_merchant_one decode api mid s) st

/-- A concrete stand-in for `json.loads` used by witnesses and
counterexamples: a small table of bodies, everything else a decode
failure.  It satisfies `demoDecode "" = none` like `json.loads`. -/
def demoDecode : String → Option Json
  | "T" => some (.bool true)
  | "[]" => some (.arr [])
  | "0" => some (.num 0)
  | _ => none

/-- A network on which every request fails at transport level. -/
def failApi : String → CurlOutcome := fun _ => .ran 1 ("")

/-- A network on which every request succeeds with the truthy body `T`. -/
def okApi : String → CurlOutcome := fun _ => .ran 0 ("T")

/-! ### The discovery worker: calls and filesystem effects -/

/-- The request paths one discovery-loop iteration issues for an id. -/
def callsOf (decode : String → Option Json) (api : String → CurlOutcome)
    (tx_id : String) : List String :=
  if pyTruthy (fetch_json decode (api (urlTx tx_id))) then [urlTx tx_id, urlWhy tx_id]
  else [urlTx tx_id]

/-! ### Concrete fixtures for witnesses and counterexamples -/

/-- The first hard-coded transaction id. -/
def c1id : String := "dd129486-0b41-4b60-b023-b84834eb88d1"

/-- A network where the primary fetch of `c1id` fails but its why fetch
succeeds with a truthy body. -/
def c1api : String → CurlOutcome :=
  fun p => if p = urlWhy c1id then .ran 0 ("T") else .ran 1 ("")

/-- The 36-character id made of a characters. -/
def a36 : String := String.mk (List.replicate 36 'a')

/-- The 36-character id made of b characters. -/
def b36 : String := String.mk (List.replicate 36 'b')

/-- A complete occurrence of the pattern capturing `b36`. -/
def c3good : String := "\"transaction_id\": \"" ++ (b36 ++ "\"")

/-- An occurrence of the pattern whose id `a36` lacks its closing quote
and is closed by the first character of whatever follows. -/
def c3pre : String := "\"transaction_id\": \"" ++ a36

/-- A scanned fixture file holding one full pattern occurrence. -/
def c3file : ScanFile := ⟨["fixtures.json"], some c3good⟩

/-- The same content behind an overlapping unclosed occurrence. -/
def c3file2 : ScanFile := ⟨["fixtures.json"], some (c3pre ++ c3good)⟩

/-- The directory state produced by a fully successful first discovery run
over the single id `ab`. -/
def c4wSt : St := ⟨["transactions/why/ab.json", "transactions/ab.json"], [], [], 0, 0⟩

/-- Output directory content of the C5 scenario. -/
def c5fs : List String := ["transactions/dd129486-0b41-4b60-b023-b84834eb88d1.json"]

/-- Discovered id set of the C5 scenario. -/
def c5ids : List String :=
  ["dd129486-0b41-4b60-b023-b84834eb88d1", "dd120776-d050-44ad-a807-0881ec66b25c"]

/-- A JSON file outside the designated `transactions/` subtree whose path
string nevertheless contains the word `transactions`. -/
def c6file : ScanFile := ⟨["old_transactions_backup.json"], some c3good⟩

/-- A file inside the designated transactions output subtree. -/
def c6sub : ScanFile := ⟨["transactions", "x.json"], some c3good⟩

/-- A network answering only the encoded plan-detail URL for merchant 30. -/
def c7api : String → CurlOutcome :=
  fun p => if p = "/merchants/30/plans/m%3A30%3Aplan%2Fv1" then .ran 0 ("T") else .ran 1 ("")

/-- A network whose primary transaction response decodes to a falsy value. -/
def api9 : String → CurlOutcome :=
  fun p => if p = urlTx ("ab") then .ran 0 ("[]") else .ran 1 ("")

/-! ### Helper lemmas about the set-as-list operations -/

theorem mem_insertNew {x y : String} {l : List String} :
    y ∈ insertNew x l ↔ y = x ∨ y ∈ l := by
  unfold insertNew
  split
  · rename_i hx
    constructor
    · exact Or.inr
    · rintro (rfl | hy)
      · exact hx
      · exact hy
  · simp [or_comm]

theorem nodup_insertNew {x : String} {l : List String} (h : l.Nodup) :
    (insertNew x l).Nodup := by
  unfold insertNew
  split
  · exact h
  · rename_i hx
    simp [List.nodup_append, h, hx]

theorem mem_updateSet {y : String} {acc l : List String} :
    y ∈ updateSet acc l ↔ y ∈ acc ∨ y ∈ l := by
  induction l generalizing acc with
  | nil => simp [updateSet]
  | cons m ms ih =>
    show y ∈ updateSet (insertNew m acc) ms ↔ _
    rw [ih, mem_insertNew]
    simp
    tauto

theorem nodup_updateSet {acc l : List String} (h : acc.Nodup) :
    (updateSet acc l).Nodup := by
  induction l generalizing acc with
  | nil => exact h
  | cons m ms ih => exact ih (nodup_insertNew h)

theorem mem_insertSorted {x y : String} {l : List String} :
    y ∈ insertSorted x l ↔ y = x ∨ y ∈ l := by
  induction l with
  | nil => simp [insertSorted]
  | cons z zs ih =>
    unfold insertSorted
    split
    · simp
    · simp [ih]
      tauto

theorem mem_sortStrings {y : String} {l : List String} :
    y ∈ sortStrings l ↔ y ∈ l := by
  induction l with
  | nil => simp [sortStrings]
  | cons z zs ih =>
    show y ∈ insertSorted z (sortStrings zs) ↔ _
    rw [mem_insertSorted, ih]
    simp

/-! ### Shape of the scanner output -/

theorem takeClass_shape :
    ∀ (n : Nat) (cs ids rest : List Char), takeClass n cs = some (ids, rest) →
      ids.length = n ∧ ∀ c ∈ ids, isIdChar c = true := by
  intro n
  induction n with
  | zero =>
    intro cs ids rest h
    simp [takeClass] at h
    simp [h.1]
  | succ m ih =>
    intro cs ids rest h
    cases cs with
    | nil => simp [takeClass] at h
    | cons c cs =>
      unfold takeClass at h
      split at h
      · rename_i hc
        cases htc : takeClass m cs with
        | none => rw [htc] at h; simp at h
        | some pr =>
          rw [htc] at h
          obtain ⟨ids0, rest0⟩ := pr
          simp at h
          obtain ⟨hids, hrest⟩ := h
          obtain ⟨hlen, hall⟩ := ih cs ids0 rest0 htc
          subst hids
          refine ⟨by simp [hlen], ?_⟩
          intro x hx
          rcases List.mem_cons.mp hx with rfl | hx0
          · exact hc
          · exact hall x hx0
      · simp at h

theorem matchAt_shape {cs : List Char} {s : String} {r : List Char}
    (h : matchAt cs = some (s, r)) :
    s.data.length = 36 ∧ ∀ c ∈ s.data, isIdChar c = true := by
  unfold matchAt at h
  split at h
  · simp at h
  · split at h
    · simp at h
    · split at h
      · split at h
        · simp at h
        · split at h
          · simp at h
          · split at h
            · simp at h
              obtain ⟨hs, hr⟩ := h
              subst hs
              exact takeClass_shape _ _ _ _ (by assumption)
            · simp at h
      · simp at h

theorem findIdsFuel_shape :
    ∀ (fuel : Nat) (cs : List Char) (x : String), x ∈ findIdsFuel fuel cs →
      x.data.length = 36 ∧ ∀ c ∈ x.data, isIdChar c = true := by
  intro fuel
  induction fuel with
  | zero => intro cs x hx; simp [findIdsFuel] at hx
  | succ m ih =>
    intro cs x hx
    cases cs with
    | nil => simp [findIdsFuel] at hx
    | cons c cs =>
      unfold findIdsFuel at hx
      cases hm : matchAt (c :: cs) with
      | none => rw [hm] at hx; exact ih cs x hx
      | some pr =>
        rw [hm] at hx
        obtain ⟨id, rest⟩ := pr
        rcases List.mem_cons.mp hx with rfl | hx0
        · exact matchAt_shape hm
        · exact ih rest x hx0

theorem findIds_shape {content : String} {x : String} (h : x ∈ findIds content) :
    x.data.length = 36 ∧ ∀ c ∈ x.data, isIdChar c = true :=
  findIdsFuel_shape _ _ x h

/-! ### The discovery scan as a set of captures -/

theorem mem_scanStep {root : String} {acc : List String} {f : ScanFile} {x : String} :
    x ∈ scanStep root acc f ↔
      x ∈ acc ∨ ((isJsonName f.name && !mentionsTransactions root f) = true ∧
        ∃ c, f.content = some c ∧ x ∈ findIds c) := by
  unfold scanStep
  split
  · rename_i hcond
    cases hc : f.content with
    | none => simp [hc]
    | some c => simp [hc, mem_updateSet, hcond]
  · rename_i hcond
    constructor
    · exact Or.inl
    · rintro (hx | ⟨hb, hc⟩)
      · exact hx
      · exact absurd hb hcond

theorem nodup_scanStep {root : String} {acc : List String} {f : ScanFile}
    (h : acc.Nodup) : (scanStep root acc f).Nodup := by
  unfold scanStep
  split
  · cases f.content with
    | none => exact h
    | some c => exact nodup_updateSet h
  · exact h

theorem mem_foldl_scanStep {root : String} {x : String} :
    ∀ (files : List ScanFile) (acc : List String),
      x ∈ files.foldl (scanStep root) acc ↔
        x ∈ acc ∨ ∃ f ∈ files, (isJsonName f.name && !mentionsTransactions root f) = true ∧
          ∃ c, f.content = some c ∧ x ∈ findIds c := by
  intro files
  induction files with
  | nil => simp
  | cons g gs ih =>
    intro acc
    rw [List.foldl_cons, ih, mem_scanStep]
    constructor
    · rintro ((hx | ⟨hb, hc⟩) | ⟨f, hf, hb, hc⟩)
      · exact Or.inl hx
      · exact Or.inr ⟨g, List.mem_cons_self g gs, hb, hc⟩
      · exact Or.inr ⟨f, List.mem_cons_of_mem g hf, hb, hc⟩
    · rintro (hx | ⟨f, hf, hb, hc⟩)
      · exact Or.inl (Or.inl hx)
      · rcases List.mem_cons.mp hf with rfl | hf0
        · exact Or.inl (Or.inr ⟨hb, hc⟩)
        · exact Or.inr ⟨f, hf0, hb, hc⟩

theorem mem_find_all {root : String} {files : List ScanFile} {x : String} :
    x ∈ find_all_transaction_ids root files ↔
      ∃ f ∈ files, (isJsonName f.name && !mentionsTransactions root f) = true ∧
        ∃ c, f.content = some c ∧ x ∈ findIds c := by
  unfold find_all_transaction_ids
  rw [mem_foldl_scanStep]
  simp

theorem nodup_find_all {root : String} {files : List ScanFile} :
    (find_all_transaction_ids root files).Nodup := by
  unfold find_all_transaction_ids
  have general : ∀ (fl : List ScanFile) (acc : List String), acc.Nodup →
      (fl.foldl (scanStep root) acc).Nodup := by
    intro fl
    induction fl with
    | nil => intro acc h; exact h
    | cons g gs ih => intro acc h; exact ih _ (nodup_scanStep h)
  exact general files [] List.nodup_nil

/-! ### The idempotency filter: stems of TX_DIR entries -/

theorem stemJson_append {id : String} (h1 : id ≠ "") :
    stemJson (String.mk (id.data ++ ".json".data)) = id := by
  unfold stemJson
  have hL : (String.mk (id.data ++ ".json".data)).data = id.data ++ ".json".data := rfl
  rw [hL]
  have hlen : (id.data ++ ".json".data).length - 5 = id.data.length := by
    simp [List.length_append]
  rw [hlen, List.take_left]
  rw [show String.mk id.data = id from rfl]
  rw [if_neg h1]

theorem stemJson_data_subset (nm : String) : (stemJson nm).data ⊆ nm.data := by
  unfold stemJson
  split
  · exact fun a h => h
  · exact List.take_subset _ _

theorem parseTx_roundtrip {id : String} (h1 : id ≠ "") (h2 : '/' ∉ id.data) :
    parseTx (txFilePath id) = some id := by
  have hdata : (txFilePath id).data = "transactions/".data ++ (id.data ++ ".json".data) := by
    simp [txFilePath, String.data_append]
  have hlen : (13 : Nat) = ("transactions/".data).length := by decide
  simp only [parseTx]
  rw [hdata, hlen, List.take_left, List.drop_left, if_pos rfl]
  have hslash : '/' ∉ (String.mk (id.data ++ ".json".data)).data := by
    intro hm
    rcases List.mem_append.mp hm with hA | hB
    · exact h2 hA
    · revert hB
      decide
  have hsuffix : isJsonName (String.mk (id.data ++ ".json".data)) = true := by
    unfold isJsonName
    rw [List.isSuffixOf_iff_suffix]
    exact List.suffix_append id.data ".json".data
  have hwhy : String.mk (id.data ++ ".json".data) ≠ "why" := by
    intro he
    have hd := congrArg String.data he
    have hl := congrArg List.length hd
    simp [List.length_append] at hl
  have hcond : (decide ('/' ∉ (String.mk (id.data ++ ".json".data)).data) &&
      isJsonName (String.mk (id.data ++ ".json".data)) &&
      decide (String.mk (id.data ++ ".json".data) ≠ "why")) = true := by
    rw [Bool.and_eq_true, Bool.and_eq_true]
    exact ⟨⟨decide_eq_true hslash, hsuffix⟩, decide_eq_true hwhy⟩
  rw [if_pos hcond, stemJson_append h1]

theorem parseTx_no_slash {p x : String} (h : parseTx p = some x) : '/' ∉ x.data := by
  simp only [parseTx] at h
  split at h
  · split at h
    · rename_i hcond
      rw [Bool.and_eq_true, Bool.and_eq_true] at hcond
      obtain ⟨⟨hs, _⟩, _⟩ := hcond
      have hns := of_decide_eq_true hs
      simp at h
      intro hx
      exact hns (stemJson_data_subset _ (h ▸ hx))
    · simp at h
  · simp at h

theorem mem_stemStep {x : String} {acc : List String} {p : String} :
    x ∈ stemStep acc p ↔ x ∈ acc ∨ parseTx p = some x := by
  unfold stemStep
  cases hq : parseTx p with
  | none => simp
  | some s =>
    rw [mem_insertNew]
    constructor
    · rintro (rfl | hx)
      · exact Or.inr rfl
      · exact Or.inl hx
    · rintro (hx | hsx)
      · exact Or.inr hx
      · cases hsx
        exact Or.inl rfl

theorem mem_foldl_stemStep {x : String} :
    ∀ (l acc : List String),
      x ∈ l.foldl stemStep acc ↔ x ∈ acc ∨ ∃ p ∈ l, parseTx p = some x := by
  intro l
  induction l with
  | nil => simp
  | cons q qs ih =>
    intro acc
    rw [List.foldl_cons, ih, mem_stemStep]
    constructor
    · rintro ((hx | hq) | ⟨p, hp, hpx⟩)
      · exact Or.inl hx
      · exact Or.inr ⟨q, List.mem_cons_self q qs, hq⟩
      · exact Or.inr ⟨p, List.mem_cons_of_mem q hp, hpx⟩
    · rintro (hx | ⟨p, hp, hpx⟩)
      · exact Or.inl (Or.inl hx)
      · rcases List.mem_cons.mp hp with rfl | hp0
        · exact Or.inl (Or.inr hpx)
        · exact Or.inr ⟨p, hp0, hpx⟩

theorem mem_existingStems {x : String} {fs : List String} :
    x ∈ existingStems fs ↔ ∃ p ∈ fs, parseTx p = some x := by
  unfold existingStems
  rw [mem_foldl_stemStep]
  simp

theorem existingStems_no_slash {x : String} {fs : List String}
    (h : x ∈ existingStems fs) : '/' ∉ x.data := by
  obtain ⟨p, _, hp⟩ := mem_existingStems.mp h
  exact parseTx_no_slash hp

theorem existingStems_mono {fs fs2 : List String} (h : fs ⊆ fs2) :
    existingStems fs ⊆ existingStems fs2 := by
  intro x hx
  obtain ⟨p, hp, hpx⟩ := mem_existingStems.mp hx
  exact mem_existingStems.mpr ⟨p, h hp, hpx⟩

theorem processTxDiscovery_calls {decode : String → Option Json}
    {api : String → CurlOutcome} {st : St} {tx_id : String} :
    (processTxDiscovery decode api st tx_id).calls =
      st.calls ++ callsOf decode api tx_id := by
  by_cases h : pyTruthy (fetch_json decode (api (urlTx tx_id))) = true
  · simp only [processTxDiscovery, callsOf, recordCall, save_json, h, if_true]
    split <;> simp
  · rw [Bool.not_eq_true] at h
    simp [processTxDiscovery, callsOf, recordCall, h]

theorem processTxDiscovery_falsy {decode : String → Option Json}
    {api : String → CurlOutcome} {st : St} {tx_id : String}
    (h : pyTruthy (fetch_json decode (api (urlTx tx_id))) = false) :
    processTxDiscovery decode api st tx_id =
      { st with calls := st.calls ++ [urlTx tx_id], failed := st.failed + 1 } := by
  simp [processTxDiscovery, recordCall, h]

theorem processTxDiscovery_fs_mono {decode : String → Option Json}
    {api : String → CurlOutcome} {st : St} {tx_id : String} :
    st.fs ⊆ (processTxDiscovery decode api st tx_id).fs := by
  by_cases h : pyTruthy (fetch_json decode (api (urlTx tx_id))) = true
  · simp only [processTxDiscovery, recordCall, save_json, h, if_true]
    split
    · intro a ha
      simp [ha]
    · intro a ha
      simp [ha]
  · rw [Bool.not_eq_true] at h
    simp [processTxDiscovery, recordCall, h]

theorem processTxDiscovery_saves {decode : String → Option Json}
    {api : String → CurlOutcome} {st : St} {tx_id : String}
    (h : pyTruthy (fetch_json decode (api (urlTx tx_id))) = true) :
    txFilePath tx_id ∈ (processTxDiscovery decode api st tx_id).fs := by
  simp only [processTxDiscovery, recordCall, save_json, h, if_true]
  split <;> simp

theorem foldl_processTxDiscovery_calls {decode : String → Option Json}
    {api : String → CurlOutcome} :
    ∀ (l : List String) (st : St),
      (l.foldl (processTxDiscovery decode api) st).calls =
        st.calls ++ (l.map (callsOf decode api)).flatten := by
  intro l
  induction l with
  | nil => simp
  | cons q qs ih =>
    intro st
    rw [List.foldl_cons, ih, processTxDiscovery_calls]
    simp

theorem foldl_processTxDiscovery_fs_mono {decode : String → Option Json}
    {api : String → CurlOutcome} :
    ∀ (l : List String) (st : St),
      st.fs ⊆ (l.foldl (processTxDiscovery decode api) st).fs := by
  intro l
  induction l with
  | nil => exact fun st => List.Subset.refl _
  | cons q qs ih =>
    intro st
    exact (processTxDiscovery_fs_mono).trans (ih _)

theorem foldl_processTxDiscovery_saves {decode : String → Option Json}
    {api : String → CurlOutcome} :
    ∀ (l : List String) (st : St) (tx_id : String), tx_id ∈ l →
      pyTruthy (fetch_json decode (api (urlTx tx_id))) = true →
      txFilePath tx_id ∈ (l.foldl (processTxDiscovery decode api) st).fs := by
  intro l
  induction l with
  | nil => intro st tx_id h; simp at h
  | cons q qs ih =>
    intro st tx_id hmem htr
    rcases List.mem_cons.mp hmem with rfl | h0
    · exact foldl_processTxDiscovery_fs_mono qs _ (processTxDiscovery_saves htr)
    · exact ih _ tx_id h0 htr

/-! ### URL disambiguation and the discovery main -/

theorem urlTx_inj {a b : String} (h : urlTx a = urlTx b) : a = b := by
  have hd := congrArg String.data h
  simp only [urlTx, String.data_append] at hd
  exact String.ext (List.append_cancel_left hd)

theorem urlTx_eq_urlWhy_slash {a b : String} (h : urlTx a = urlWhy b) : '/' ∈ a.data := by
  have hd := congrArg String.data h
  simp only [urlTx, urlWhy, String.data_append] at hd
  have hab := List.append_cancel_left hd
  rw [hab]
  exact List.mem_append.mpr (Or.inr (by decide))

theorem mem_callsOf {decode : String → Option Json} {api : String → CurlOutcome}
    {tx_id c : String} (hc : c ∈ callsOf decode api tx_id) :
    c = urlTx tx_id ∨ c = urlWhy tx_id := by
  unfold callsOf at hc
  split at hc <;> simp at hc <;> tauto

theorem discovery_main_fs_mono {decode : String → Option Json}
    {api : String → CurlOutcome} {tx_ids : List String} {st : St} :
    st.fs ⊆ (discovery_main decode api tx_ids st).fs := by
  simp only [discovery_main]
  split
  · exact fun a h => h
  · exact foldl_processTxDiscovery_fs_mono _ _

theorem discovery_main_empty {decode : String → Option Json}
    {api : String → CurlOutcome} {tx_ids : List String} {st : St}
    (h : ∀ id ∈ tx_ids, id ∈ existingStems st.fs) :
    discovery_main decode api tx_ids st = st := by
  have hm : workSet tx_ids st.fs = [] := by
    unfold workSet
    rw [List.filter_eq_nil_iff]
    intro a ha
    simp [h a ha]
  simp only [discovery_main]
  rw [hm]
  rfl

theorem discovery_main_no_refetch {decode : String → Option Json}
    {api : String → CurlOutcome} {tx_ids : List String} {st : St} {x : String}
    (hx : x ∈ existingStems st.fs)
    (hmem : urlTx x ∈ (discovery_main decode api tx_ids st).calls) :
    urlTx x ∈ st.calls := by
  simp only [discovery_main] at hmem
  split at hmem
  · exact hmem
  · rw [foldl_processTxDiscovery_calls] at hmem
    rcases List.mem_append.mp hmem with h1 | h2
    · exact h1
    · exfalso
      obtain ⟨ll, hll, hcl⟩ := List.mem_flatten.mp h2
      obtain ⟨id2, hid2, rfl⟩ := List.mem_map.mp hll
      have hid2w : id2 ∈ workSet tx_ids st.fs := mem_sortStrings.mp hid2
      unfold workSet at hid2w
      have hid2f := List.mem_filter.mp hid2w
      rcases mem_callsOf hcl with he | he
      · have hxid : x = id2 := urlTx_inj he
        subst hxid
        exact (of_decide_eq_true hid2f.2) hx
      · exact existingStems_no_slash hx (urlTx_eq_urlWhy_slash he)

theorem discovery_main_second_run {decode : String → Option Json}
    {api : String → CurlOutcome} {tx_ids : List String} {st : St}
    (hsucc : ∀ id ∈ tx_ids, pyTruthy (fetch_json decode (api (urlTx id))) = true)
    (hwf : ∀ id ∈ tx_ids, id ≠ "" ∧ '/' ∉ id.data)
    (st2 : St) (hfs : st2.fs = (discovery_main decode api tx_ids st).fs) :
    discovery_main decode api tx_ids st2 = st2 := by
  apply discovery_main_empty
  intro id hid
  rw [hfs]
  by_cases hex : id ∈ existingStems st.fs
  · exact existingStems_mono discovery_main_fs_mono hex
  · have hwk : id ∈ workSet tx_ids st.fs := by
      unfold workSet
      exact List.mem_filter.mpr ⟨hid, decide_eq_true hex⟩
    have hne : ¬ (workSet tx_ids st.fs).isEmpty = true := by
      intro hemp
      rw [List.isEmpty_iff] at hemp
      rw [hemp] at hwk
      simp at hwk
    have hred : discovery_main decode api tx_ids st =
        (sortStrings (workSet tx_ids st.fs)).foldl (processTxDiscovery decode api) st := by
      simp only [discovery_main]
      rw [if_neg hne]
    rw [hred]
    have hsave : txFilePath id ∈
        ((sortStrings (workSet tx_ids st.fs)).foldl (processTxDiscovery decode api) st).fs :=
      foldl_processTxDiscovery_saves _ _ id (mem_sortStrings.mpr hwk) (hsucc id hid)
    obtain ⟨hne', hns⟩ := hwf id hid
    exact mem_existingStems.mpr ⟨txFilePath id, hsave, parseTx_roundtrip hne' hns⟩

/-! ### Skipping falsy plan keys -/

theorem processPlan_skip {decode : String → Option Json} {api : String → CurlOutcome}
    {merchant_id : Nat} {st : St} {kvs : List (String × Json)}
    (h : List.lookup ("plan_key") kvs = none ∨
         List.lookup ("plan_key") kvs = some Json.null ∨
         List.lookup ("plan_key") kvs = some (Json.str "")) :
    processPlan decode api merchant_id st (.obj kvs) = .ok st := by
  rcases h with h | h | h <;> simp [processPlan, h, Json.truthy]

theorem processPlans_cons {decode : String → Option Json} {api : String → CurlOutcome}
    {merchant_id : Nat} {st : St} {p : Json} {ps : List Json} :
    processPlans decode api merchant_id st (p :: ps) =
      match processPlan decode api merchant_id st p with
      | .ok st1 => processPlans decode api merchant_id st1 ps
      | .error e => .error e := rfl

theorem processPlans_skip {decode : String → Option Json} {api : String → CurlOutcome}
    {merchant_id : Nat} {kvs : List (String × Json)}
    (h : List.lookup ("plan_key") kvs = none ∨
         List.lookup ("plan_key") kvs = some Json.null ∨
         List.lookup ("plan_key") kvs = some (Json.str "")) :
    ∀ (xs : List Json) (st : St) (ys : List Json),
      processPlans decode api merchant_id st (xs ++ Json.obj kvs :: ys) =
        processPlans decode api merchant_id st (xs ++ ys) := by
  intro xs
  induction xs with
  | nil =>
    intro st ys
    simp only [List.nil_append]
    rw [processPlans_cons, processPlan_skip h]
  | cons p ps ih =>
    intro st ys
    simp only [List.cons_append]
    rw [processPlans_cons, processPlans_cons]
    cases hp : processPlan decode api merchant_id st p with
    | ok st1 => exact ih st1 ys
    | error e => rfl

theorem urlWhy_ne_urlTx (a : String) : urlWhy a ≠ urlTx a := by
  intro h
  have hl := congrArg (fun s => s.data.length) h
  simp [urlWhy, urlTx, String.data_append, List.length_append] at hl

set_option maxRecDepth 4000 in
set_option maxHeartbeats 1000000 in
/-- C1 (corrected): the static variant (`extract_transactions`) issues the
dependent why fetch unconditionally.  On a network where the primary fetch
of `c1id` fails (absence signal) while the why endpoint answers, the
why request is still made and a why artifact for `c1id` exists
afterwards, contradicting the claim for the static variant. -/
theorem c1_static_why_fetch_counterexample :
    fetch_json demoDecode (c1api (urlTx c1id)) = none ∧
    urlWhy c1id ∈ (extract_transactions demoDecode c1api St.init).calls ∧
    whyFilePath c1id ∈ (extract_transactions demoDecode c1api St.init).fs := by
  refine ⟨rfl, ?_, ?_⟩ <;> decide

/-- C1 (amended): in the discovery variant the claim holds: when the
primary transaction fetch returns the absence signal (or a falsy value),
the iteration records only the failed primary call and the failure count -
no sub-resource fetch is attempted, nothing is written, and no why
artifact for the identifier exists afterwards unless it already existed
before.  The static variant instead issues its why fetch unconditionally
(see the counterexample). -/
theorem c1_failed_primary_skips_why_discovery
    (decode : String → Option Json) (api : String → CurlOutcome) (st : St) (tx_id : String)
    (h : pyTruthy (fetch_json decode (api (urlTx tx_id))) = false) :
    processTxDiscovery decode api st tx_id =
      { st with calls := st.calls ++ [urlTx tx_id], failed := st.failed + 1 } ∧
    (urlWhy tx_id ∉ st.calls → urlWhy tx_id ∉ (processTxDiscovery decode api st tx_id).calls) ∧
    (whyFilePath tx_id ∉ st.fs → whyFilePath tx_id ∉ (processTxDiscovery decode api st tx_id).fs) := by
  have he := @processTxDiscovery_falsy decode api st tx_id h
  refine ⟨he, ?_, ?_⟩
  · intro hnc hmem
    rw [he] at hmem
    rcases List.mem_append.mp hmem with h1 | h2
    · exact hnc h1
    · exact urlWhy_ne_urlTx tx_id (List.mem_singleton.mp h2)
  · intro hnf hmem
    rw [he] at hmem
    exact hnf hmem

/-- C1 witness: the amended theorem applied to a concrete failing network. -/
theorem c1_witness :
    processTxDiscovery demoDecode failApi St.init ("ab") =
      { St.init with calls := [urlTx ("ab")], failed := 1 } :=
  (c1_failed_primary_skips_why_discovery demoDecode failApi St.init ("ab") (by decide)).1

/-- C2 (confirmed): `fetch_json` never raises and returns the absence
signal `none` exactly when the transport reports failure (a raised
exception or a nonzero curl exit status - the form in which a
non-2xx-equivalent outcome surfaces at this subprocess boundary) or the
body fails to decode as JSON (an empty body is undecodable:
`decode "" = none` like `json.loads`); in every other case it returns the
decoded JSON value. -/
theorem c2_fetch_json_absence (decode : String → Option Json) (o : CurlOutcome)
    (hd : decode ("") = none) :
    (fetch_json decode o = none ↔
      (match o with
       | .exc _ => True
       | .ran rc out => rc ≠ 0 ∨ decode out = none)) ∧
    (∀ rc out j, o = .ran rc out →
      (fetch_json decode o = some j ↔ (rc = 0 ∧ decode out = some j))) := by
  cases o with
  | exc m =>
    refine ⟨by simp [fetch_json], ?_⟩
    intro rc out j heq
    cases heq
  | ran rc out =>
    constructor
    · show (if rc = 0 ∧ out ≠ "" then decode out else none) = none ↔ _
      by_cases hrc : rc = 0
      · by_cases hout : out = ""
        · subst hout
          simp [hrc, hd]
        · simp [hrc, hout]
      · simp [hrc]
    · intro rc2 out2 j heq
      injection heq with h1 h2
      subst h1
      subst h2
      show (if rc = 0 ∧ out ≠ "" then decode out else none) = some j ↔ _
      by_cases hrc : rc = 0
      · by_cases hout : out = ""
        · subst hout
          simp [hrc, hd]
        · simp [hrc, hout]
      · simp [hrc]

/-- C2 witness: a concrete successful fetch of a decodable truthy body. -/
theorem c2_witness :
    fetch_json demoDecode (CurlOutcome.ran 0 ("T")) = some (Json.bool true) ↔
      ((0 : Int) = 0 ∧ demoDecode ("T") = some (Json.bool true)) :=
  (c2_fetch_json_absence demoDecode (CurlOutcome.ran 0 ("T")) rfl).2 0 ("T")
    (Json.bool true) rfl

/-- C3 (corrected): the scan is a left-to-right NON-overlapping
`re.findall`; surrounding content can therefore destroy a capture.  The
content `c3good` on its own yields exactly the b-id, but prefixing the
unclosed occurrence `c3pre` (whose id is closed by the first quote of
`c3good`) makes the scan capture the a-id and lose the b-id, although
`c3good` is still literally present: the result does depend on
surrounding content. -/
theorem c3_overlap_counterexample :
    find_all_transaction_ids ("/data") [c3file] = [b36] ∧
    find_all_transaction_ids ("/data") [c3file2] = [a36] ∧
    b36 ∉ find_all_transaction_ids ("/data") [c3file2] := by
  refine ⟨?_, ?_, ?_⟩ <;> decide

/-- C3 (amended): the discovery function returns exactly the set of
distinct identifiers captured by the left-to-right non-overlapping scan of
each readable scanned file: membership is equivalent to being captured in
some such file, the result is duplicate-free, it does not depend on the
order in which files are scanned, and every returned string has the shape
of the regex capture (36 characters of the class [a-f0-9-]). -/
theorem c3_scan_captures (root : String) (files : List ScanFile) (x : String) :
    (x ∈ find_all_transaction_ids root files ↔
      ∃ f ∈ files, (isJsonName f.name && !mentionsTransactions root f) = true ∧
        ∃ c, f.content = some c ∧ x ∈ findIds c) ∧
    (find_all_transaction_ids root files).Nodup ∧
    (∀ files2, files.Perm files2 →
      (find_all_transaction_ids root files).toFinset =
        (find_all_transaction_ids root files2).toFinset) ∧
    (x ∈ find_all_transaction_ids root files →
      x.data.length = 36 ∧ ∀ ch ∈ x.data, isIdChar ch = true) := by
  refine ⟨mem_find_all, nodup_find_all, ?_, ?_⟩
  · intro files2 hp
    ext y
    simp only [List.mem_toFinset]
    rw [mem_find_all, mem_find_all]
    constructor
    · rintro ⟨f, hf, rest⟩
      exact ⟨f, hp.mem_iff.mp hf, rest⟩
    · rintro ⟨f, hf, rest⟩
      exact ⟨f, hp.mem_iff.mpr hf, rest⟩
  · intro hx
    obtain ⟨f, _, _, c, _, hc⟩ := mem_find_all.mp hx
    exact findIds_shape hc

/-- C3 witness: the characterization applied to a concrete fixture. -/
theorem c3_witness :
    b36 ∈ find_all_transaction_ids ("/data") [c3file] :=
  (c3_scan_captures ("/data") [c3file] b36).1.mpr
    ⟨c3file, List.mem_singleton.mpr rfl, by decide, c3good, rfl, by decide⟩

/-- C4 (corrected): with an unchanged API on which a discovered id keeps
failing, the first run saves nothing for it, so the second run against the
unchanged directory state retries it: the second run performs network
activity, contradicting the unconditional two-run claim. -/
theorem c4_second_run_counterexample :
    (discovery_main demoDecode failApi (["ab"])
      { St.init with fs := (discovery_main demoDecode failApi (["ab"]) St.init).fs }).calls
      ≠ [] := by
  decide

/-- C4 (amended): the discovery pipeline never fetches an identifier whose
artifact is already present (its primary URL is only ever requested for
ids outside the existing stems); an empty work set means the run returns
immediately with no network call and no state change; and the two-run
idempotency holds under the proviso that every primary fetch of the first
run succeeded (truthily), for well-formed ids: the second run against the
resulting directory state is a no-op. -/
theorem c4_idempotency (decode : String → Option Json) (api : String → CurlOutcome)
    (tx_ids : List String) (st : St) :
    (∀ x, x ∈ existingStems st.fs →
        urlTx x ∈ (discovery_main decode api tx_ids st).calls → urlTx x ∈ st.calls) ∧
    ((∀ id ∈ tx_ids, id ∈ existingStems st.fs) → discovery_main decode api tx_ids st = st) ∧
    ((∀ id ∈ tx_ids, pyTruthy (fetch_json decode (api (urlTx id))) = true) →
      (∀ id ∈ tx_ids, id ≠ "" ∧ '/' ∉ id.data) →
      ∀ st2 : St, st2.fs = (discovery_main decode api tx_ids st).fs →
        discovery_main decode api tx_ids st2 = st2) :=
  ⟨fun _ hx hm => discovery_main_no_refetch hx hm,
   fun h => discovery_main_empty h,
   fun hs hw st2 hfs => discovery_main_second_run hs hw st2 hfs⟩

/-- C4 witness: after a fully successful run, a rerun is a no-op. -/
theorem c4_witness :
    discovery_main demoDecode okApi (["ab"]) c4wSt = c4wSt :=
  (c4_idempotency demoDecode okApi (["ab"]) St.init).2.2 (by decide) (by decide)
    c4wSt (by decide)

/-- C5 (confirmed): the idempotency filter computes exactly the set
difference of the discovered identifiers minus the stems present in the
output directory, and on the concrete scenario of the claim the work set
is exactly the one missing id. -/
theorem c5_work_set_difference :
    (∀ (tx_ids fs : List String),
      (workSet tx_ids fs).toFinset = tx_ids.toFinset \ (existingStems fs).toFinset) ∧
    existingStems c5fs = ["dd129486-0b41-4b60-b023-b84834eb88d1"] ∧
    workSet c5ids c5fs = ["dd120776-d050-44ad-a807-0881ec66b25c"] := by
  refine ⟨?_, by decide, by decide⟩
  intro tx_ids fs
  ext y
  simp only [List.mem_toFinset, Finset.mem_sdiff, workSet, List.mem_filter]
  constructor
  · rintro ⟨h1, h2⟩
    exact ⟨h1, of_decide_eq_true h2⟩
  · rintro ⟨h1, h2⟩
    exact ⟨h1, decide_eq_true h2⟩

/-- C6 (corrected): the exclusion is a substring test on the whole path
string, not a subtree test.  `c6file` is a JSON file that is not inside
the `transactions/` output subtree and contains a pattern match, yet the
scan excludes it and returns nothing. -/
theorem c6_coarse_filter_counterexample :
    c6file.comps.head? ≠ some ("transactions") ∧
    isJsonName c6file.name = true ∧
    findIds c3good = [b36] ∧
    find_all_transaction_ids ("/srv/data") [c6file] = [] := by
  refine ⟨by decide, by decide, by decide, by decide⟩

/-- C6 (amended): a JSON-named readable file contributes its matches if and
only if its full path string avoids the substring `transactions`; every
file inside the designated `transactions/` output subtree is excluded (its
path string contains the substring), but so is any other file whose path
happens to contain it. -/
theorem c6_scan_filter (root : String) (f : ScanFile) (c : String) (x : String)
    (hc : f.content = some c) :
    (x ∈ find_all_transaction_ids root [f] ↔
      (isJsonName f.name = true ∧ mentionsTransactions root f = false ∧ x ∈ findIds c)) ∧
    (f.comps.head? = some ("transactions") → find_all_transaction_ids root [f] = []) := by
  constructor
  · rw [mem_find_all]
    constructor
    · rintro ⟨g, hg, hb, c2, hc2, hx⟩
      have hgf : g = f := List.mem_singleton.mp hg
      subst hgf
      rw [hc] at hc2
      injection hc2 with hcc
      subst hcc
      rw [Bool.and_eq_true, Bool.not_eq_true'] at hb
      exact ⟨hb.1, hb.2, hx⟩
    · rintro ⟨h1, h2, hx⟩
      refine ⟨f, List.mem_singleton.mpr rfl, ?_, c, hc, hx⟩
      rw [Bool.and_eq_true, Bool.not_eq_true']
      exact ⟨h1, h2⟩
  · intro hh
    obtain ⟨rest, hrest⟩ : ∃ rest, f.comps = "transactions" :: rest := by
      cases hcomps : f.comps with
      | nil => rw [hcomps] at hh; simp at hh
      | cons a as =>
        rw [hcomps] at hh
        simp at hh
        exact ⟨as, by rw [hh]⟩
    have hj : ∃ t, (joinPath f.comps).data = "transactions".data ++ t := by
      rw [hrest]
      cases rest with
      | nil => exact ⟨[], rfl⟩
      | cons b bs =>
        refine ⟨("/" ++ joinPath (b :: bs)).data, ?_⟩
        rw [show joinPath ("transactions" :: b :: bs) =
          "transactions" ++ "/" ++ joinPath (b :: bs) from rfl]
        simp [String.data_append, List.append_assoc]
    obtain ⟨t, ht⟩ := hj
    have hm : mentionsTransactions root f = true := by
      unfold mentionsTransactions
      apply decide_eq_true
      refine ⟨(root ++ "/").data, t, ?_⟩
      simp [pathStr, String.data_append, ht, List.append_assoc]
    show scanStep root [] f = []
    unfold scanStep
    rw [hm]
    simp

/-- C6 witness: a file in the designated subtree contributes nothing. -/
theorem c6_witness :
    find_all_transaction_ids ("/srv/data") [c6sub] = [] :=
  (c6_scan_filter ("/srv/data") c6sub c3good b36 rfl).2 rfl

/-- C7 (confirmed): for the plan key `m:30:plan/v1` the artifact file name
is `m_30_plan_v1.json` (every colon and slash replaced by an underscore)
and the URL path segment is `urllib.parse.quote` of the key with
`safe=""`; the per-plan worker requests and saves exactly these. -/
theorem c7_plan_key_encoding :
    safeKey ("m:30:plan/v1") ++ ".json" = "m_30_plan_v1.json" ∧
    pyQuote ("m:30:plan/v1") = "m%3A30%3Aplan%2Fv1" ∧
    processPlan demoDecode c7api 30 St.init (.obj [("plan_key", .str ("m:30:plan/v1"))]) =
      .ok ⟨["plans/details/m_30_plan_v1.json"], ["/merchants/30/plans/m%3A30%3Aplan%2Fv1"],
           ["Saved: plans/details/m_30_plan_v1.json"], 0, 0⟩ := by
  refine ⟨by decide, by decide, rfl⟩

/-- C8 (confirmed): a file whose read raises contributes nothing and does
not abort the scan: deleting it from the enumeration leaves the result
unchanged, whatever the other files hold. -/
theorem c8_scan_error_tolerance (root : String) (xs ys : List ScanFile)
    (comps : List String) :
    find_all_transaction_ids root (xs ++ ⟨comps, none⟩ :: ys) =
      find_all_transaction_ids root (xs ++ ys) := by
  unfold find_all_transaction_ids
  rw [List.foldl_append, List.foldl_append, List.foldl_cons]
  congr 1
  show scanStep root (xs.foldl (scanStep root) []) ⟨comps, none⟩ = _
  unfold scanStep
  split <;> rfl

/-- C9 (corrected): a falsy decode is a successful fetch (`some`, not the
absence signal), and in the static variant the dependent why fetch is NOT
skipped: it is issued unconditionally, for falsy and failed primaries
alike. -/
theorem c9_static_sub_fetch_counterexample :
    fetch_json demoDecode (api9 (urlTx ("ab"))) = some (Json.arr []) ∧
    urlWhy ("ab") ∈ (processTxStatic demoDecode api9 St.init ("ab")).calls := by
  exact ⟨rfl, by decide⟩

/-- C9 (amended): a fetch whose body decodes to a falsy JSON value, or
whose body is empty under a successful transport, is treated by each
caller exactly as that caller treats a failed fetch: the discovery worker
writes nothing, skips the why fetch and counts the id as failed; the
static worker writes no primary artifact and proceeds to its
(unconditional) why step exactly as after a failure; the merchants
extractor writes nothing. -/
theorem c9_falsy_like_failure (decode : String → Option Json) (api : String → CurlOutcome)
    (st : St) (tx_id : String) (body : String)
    (hdec : (∃ j, decode body = some j ∧ j.truthy = false) ∨ body = "") :
    (api (urlTx tx_id) = .ran 0 body →
      processTxDiscovery decode api st tx_id =
        { st with calls := st.calls ++ [urlTx tx_id], failed := st.failed + 1 }) ∧
    (api (urlTx tx_id) = .ran 0 body →
      processTxStatic decode api st tx_id =
        whyStep decode api (recordCall st (urlTx tx_id)) tx_id) ∧
    (api ("/merchants") = .ran 0 body →
      extract_merchants decode api st = recordCall st ("/merchants")) := by
  have key : pyTruthy (fetch_json decode (CurlOutcome.ran 0 body)) = false := by
    rcases hdec with ⟨j, hj, hjf⟩ | hb
    · by_cases hb : body = ""
      · subst hb
        simp [fetch_json, pyTruthy]
      · simp [fetch_json, hb, hj, pyTruthy, hjf]
    · subst hb
      simp [fetch_json, pyTruthy]
  refine ⟨?_, ?_, ?_⟩
  · intro hapi
    apply processTxDiscovery_falsy
    rw [hapi]
    exact key
  · intro hapi
    simp only [processTxStatic, hapi, key]
    simp
  · intro hapi
    simp only [extract_merchants, hapi, key]
    simp

/-- C9 witness: a body decoding to the falsy number 0 on the discovery
worker: counted failed, no why fetch, nothing written. -/
theorem c9_witness :
    processTxDiscovery demoDecode (fun _ => CurlOutcome.ran 0 ("0")) St.init ("ab") =
      { St.init with calls := [urlTx ("ab")], failed := 1 } :=
  (c9_falsy_like_failure demoDecode (fun _ => CurlOutcome.ran 0 ("0")) St.init ("ab") ("0")
    (Or.inl ⟨Json.num 0, rfl, rfl⟩)).1 rfl

/-- C10 (confirmed): a plan entry whose `plan_key` is missing, null or the
empty string is skipped silently - removing it from the list leaves the
whole loop's outcome unchanged (no fetch, no artifact, no log for it),
while every other entry is processed as before. -/
theorem c10_falsy_plan_key_skipped (decode : String → Option Json)
    (api : String → CurlOutcome) (merchant_id : Nat) (st : St)
    (xs ys : List Json) (kvs : List (String × Json))
    (h : List.lookup ("plan_key") kvs = none ∨
         List.lookup ("plan_key") kvs = some Json.null ∨
         List.lookup ("plan_key") kvs = some (Json.str "")) :
    processPlans decode api merchant_id st (xs ++ Json.obj kvs :: ys) =
      processPlans decode api merchant_id st (xs ++ ys) :=
  processPlans_skip h xs st ys

/-- C10 witness: dropping a null-keyed entry after a real one changes
nothing. -/
theorem c10_witness :
    processPlans demoDecode c7api 30 St.init
        [Json.obj [("plan_key", Json.str ("m:30:plan/v1"))], Json.obj [("plan_key", Json.null)]] =
      processPlans demoDecode c7api 30 St.init
        [Json.obj [("plan_key", Json.str ("m:30:plan/v1"))]] :=
  c10_falsy_plan_key_skipped demoDecode c7api 30 St.init
    [Json.obj [("plan_key", Json.str ("m:30:plan/v1"))]] [] [("plan_key", Json.null)]
    (Or.inr (Or.inl rfl))
